import Mathlib

/-!
Verification of the QuantAnalysis core components against their specification.

This file gives a shallow embedding, in Lean 4, of the two core components of
the repository:

* the Sentiment Computation Engine (`src/analysis/sentiment_engine.py`), and
* the Actual-Value Reconciliation Engine (`src/scraper/actual_data_collector.py`),

and proves (or refutes) the specification's claims about them.

Modelling conventions:
* Python floats are modelled as rationals (`ℚ`); the tolerance `1e-10`
  appearing in the code is the rational `1 / 10 ^ 10`.
* `None` / nullable values are modelled with `Option`.
* Strings are modelled as Lean `String`s; the Python string operations used by
  the code (`lower`, `strip`, `replace`, the `in` substring test) are defined
  below on `List Char`, following Python's (ASCII) semantics.
* Stateful code is modelled by explicit state passing; wall-clock time
  (`datetime.utcnow()`) is an explicit parameter measured in seconds.
* Fallible code returns `Bool × _` (success flag) or `Except`.
-/

namespace QuantAnalysis

/-! ### Python string primitives -/

/-- ASCII lower-casing of one character, as Python's `str.lower` acts on the
ASCII titles used by the engines. -/
def lower_char (c : Char) : Char :=
  if 65 ≤ c.toNat ∧ c.toNat ≤ 90 then Char.ofNat (c.toNat + 32) else c

/-- Python `str.lower` on a list of characters. -/
def py_lower (s : List Char) : List Char :=
  s.map lower_char

/-- Whitespace characters recognised by Python's `str.strip`. -/
def py_is_space (c : Char) : Bool :=
  c = ' ' || c = '\t' || c = '\n' || c = '\r'

/-- Python `str.strip`: remove leading and trailing whitespace. -/
def py_strip (s : List Char) : List Char :=
  ((s.dropWhile py_is_space).reverse.dropWhile py_is_space).reverse

/-- Python's substring test `sub in s`. -/
def py_contains (sub : List Char) : List Char → Bool
  | [] => sub.isEmpty
  | c :: rest => sub.isPrefixOf (c :: rest) || py_contains sub rest

/-- Fuel-driven worker for `py_replace`; the fuel bounds the number of scanning
steps, `s.length` always suffices. -/
def py_replace_fuel (pat repl : List Char) : Nat → List Char → List Char
  | _, [] => []
  | 0, s => s
  | fuel + 1, c :: rest =>
    if !pat.isEmpty && pat.isPrefixOf (c :: rest) then
      repl ++ py_replace_fuel pat repl fuel (List.drop pat.length (c :: rest))
    else
      c :: py_replace_fuel pat repl fuel rest

/-- Python `str.replace pat repl`: replace every non-overlapping occurrence of
`pat`, scanning left to right. -/
def py_replace (pat repl s : List Char) : List Char :=
  py_replace_fuel pat repl s.length s

/-! ### Sentiment engine: data model

Embeds `src/analysis/sentiment_engine.py`.  The Python event dictionaries
become the record `EventInput`; the `scheduled_datetime` entry (pass-through
ISO-string serialisation, never read by the sentiment logic) and the
pass-through `timestamp_collected` are omitted. -/

/-- One event row handed to the sentiment calculator (joined event +
latest-indicator values). -/
structure EventInput where
  event_id : Nat
  previous_value : Option ℚ
  forecast_value : Option ℚ
  actual_value : Option ℚ
  event_name : String
deriving DecidableEq

/-- Result dictionary of `SentimentCalculator.calculate_event_sentiment`. -/
structure SentimentData where
  event_id : Nat
  event_name : String
  previous_value : Option ℚ
  forecast_value : Option ℚ
  sentiment : Int
  sentiment_label : String
  data_available : Bool
  reason : Option String
  is_inverse : Bool
deriving DecidableEq

/-- Result dictionary of `SentimentCalculator.calculate_actual_event_sentiment`. -/
structure ActualSentimentData where
  event_id : Nat
  event_name : String
  previous_value : Option ℚ
  forecast_value : Option ℚ
  actual_value : Option ℚ
  actual_sentiment : Int
  actual_sentiment_label : String
  actual_data_available : Bool
  actual_reason : Option String
  is_inverse : Bool
  forecast_vs_actual_variance : Option ℚ
deriving DecidableEq

/-- The `inverse_indicators` set defined in `SentimentCalculator.__init__`
(membership is all the code ever uses, so a list is a faithful model). -/
def inverse_indicators : List String :=
  ["unemployment claims",
   "initial jobless claims",
   "continuing jobless claims",
   "unemployment rate",
   "jobless claims",
   "weekly unemployment claims",
   "business inventories",
   "crude oil inventories"]

/-- `SentimentCalculator.is_inverse_indicator`: case-insensitive substring
match of any entry of `inverse_indicators` in the event name. -/
def is_inverse_indicator (event_name : String) : Bool :=
  inverse_indicators.any (fun ind => py_contains ind.toList (py_lower event_name.toList))

/-- The speaking-event keywords tested inline in both
`calculate_event_sentiment` and `calculate_actual_event_sentiment`. -/
def speaking_keywords : List String :=
  ["speaks", "speech", "meeting", "conference", "statement", "press"]

/-- The inline speaking-event check
`any(keyword in event_name.lower() for keyword in [...])`. -/
def is_speaking_event (event_name : String) : Bool :=
  speaking_keywords.any (fun k => py_contains k.toList (py_lower event_name.toList))

/-- `SentimentCalculator.calculate_event_sentiment` (forecast-based variant),
with `threshold` standing for `self.threshold`. -/
def calculate_event_sentiment (threshold : ℚ) (event : EventInput) : SentimentData :=
  let base : SentimentData :=
    { event_id := event.event_id
      event_name := event.event_name
      previous_value := event.previous_value
      forecast_value := event.forecast_value
      sentiment := 0
      sentiment_label := "Neutral"
      data_available := true
      reason := none
      is_inverse := is_inverse_indicator event.event_name }
  match event.previous_value, event.forecast_value with
  | some previous, some forecast =>
    if is_speaking_event event.event_name then
      { base with
          sentiment := 0
          sentiment_label := "Neutral"
          reason := some "Speaking event - no directional sentiment" }
    else
      let difference := forecast - previous
      if |difference| ≤ 1 / 10 ^ 10 then
        { base with
            sentiment := 1
            sentiment_label := "Bullish"
            reason := some "Forecast meets previous value (stability/meeting expectations)" }
      else if is_inverse_indicator event.event_name then
        if difference > threshold then
          { base with
              sentiment := -1
              sentiment_label := "Bearish"
              reason := some ("Higher forecast for inverse indicator (" ++ event.event_name ++ ")") }
        else if difference < -threshold then
          { base with
              sentiment := 1
              sentiment_label := "Bullish"
              reason := some ("Lower forecast for inverse indicator (" ++ event.event_name ++ ")") }
        else
          { base with
              sentiment := 0
              sentiment_label := "Neutral"
              reason := some "Within threshold for inverse indicator" }
      else
        if difference > threshold then
          { base with
              sentiment := 1
              sentiment_label := "Bullish"
              reason := some ("Higher forecast for normal indicator (" ++ event.event_name ++ ")") }
        else if difference < -threshold then
          { base with
              sentiment := -1
              sentiment_label := "Bearish"
              reason := some ("Lower forecast for normal indicator (" ++ event.event_name ++ ")") }
        else
          { base with
              sentiment := 0
              sentiment_label := "Neutral"
              reason := some "Within threshold for normal indicator" }
  | _, _ =>
    { base with
        sentiment := 0
        sentiment_label := "Neutral"
        data_available := false
        reason := some "Missing forecast or previous value" }

/-- `SentimentCalculator.calculate_actual_event_sentiment` (actual-based
variant). -/
def calculate_actual_event_sentiment (threshold : ℚ) (event : EventInput) : ActualSentimentData :=
  let base : ActualSentimentData :=
    { event_id := event.event_id
      event_name := event.event_name
      previous_value := event.previous_value
      forecast_value := event.forecast_value
      actual_value := event.actual_value
      actual_sentiment := 0
      actual_sentiment_label := "Neutral"
      actual_data_available := true
      actual_reason := none
      is_inverse := is_inverse_indicator event.event_name
      forecast_vs_actual_variance := none }
  match event.previous_value, event.actual_value with
  | some previous, some actual =>
    let base :=
      match event.forecast_value with
      | some forecast => { base with forecast_vs_actual_variance := some (actual - forecast) }
      | none => base
    if is_speaking_event event.event_name then
      { base with
          actual_sentiment := 0
          actual_sentiment_label := "Neutral"
          actual_reason := some "Speaking event - no directional sentiment" }
    else
      let difference := actual - previous
      if |difference| ≤ 1 / 10 ^ 10 then
        { base with
            actual_sentiment := 0
            actual_sentiment_label := "Neutral"
            actual_reason := some "Actual equals previous value (no change)" }
      else if is_inverse_indicator event.event_name then
        if difference > threshold then
          { base with
              actual_sentiment := -1
              actual_sentiment_label := "Bearish"
              actual_reason := some ("Higher actual for inverse indicator (" ++ event.event_name ++ ")") }
        else if difference < -threshold then
          { base with
              actual_sentiment := 1
              actual_sentiment_label := "Bullish"
              actual_reason := some ("Lower actual for inverse indicator (" ++ event.event_name ++ ")") }
        else
          { base with
              actual_sentiment := 0
              actual_sentiment_label := "Neutral"
              actual_reason := some "Within threshold for inverse indicator" }
      else
        if difference > threshold then
          { base with
              actual_sentiment := 1
              actual_sentiment_label := "Bullish"
              actual_reason := some ("Higher actual for normal indicator (" ++ event.event_name ++ ")") }
        else if difference < -threshold then
          { base with
              actual_sentiment := -1
              actual_sentiment_label := "Bearish"
              actual_reason := some ("Lower actual for normal indicator (" ++ event.event_name ++ ")") }
        else
          { base with
              actual_sentiment := 0
              actual_sentiment_label := "Neutral"
              actual_reason := some "Within threshold for normal indicator" }
  | _, _ =>
    { base with
        actual_sentiment := 0
        actual_sentiment_label := "Neutral"
        actual_data_available := false
        actual_reason := some "Missing actual or previous value" }

/-! ### Sentiment engine: per-currency conflict resolution -/

/-- The `sentiment_counts` dictionary built by the conflict-resolution loops. -/
structure SentimentCounts where
  bullish : Nat
  bearish : Nat
  neutral : Nat
deriving DecidableEq

/-- Result dictionary of `SentimentCalculator.resolve_currency_conflicts`. -/
structure CurrencyResolution where
  final_sentiment : String
  final_sentiment_value : Int
  reason : String
  event_count : Nat
  sentiment_breakdown : SentimentCounts
deriving DecidableEq

/-- Result dictionary of `SentimentCalculator.resolve_actual_currency_conflicts`. -/
structure ActualCurrencyResolution where
  final_actual_sentiment : String
  final_actual_sentiment_value : Int
  actual_reason : String
  event_count : Nat
  actual_sentiment_breakdown : SentimentCounts
deriving DecidableEq

/-- The counting loop of `resolve_currency_conflicts`: one increment per event
according to the sign of its `sentiment` entry. -/
def count_sentiments (currency_events : List SentimentData) : SentimentCounts :=
  currency_events.foldl
    (fun counts e =>
      if e.sentiment > 0 then { counts with bullish := counts.bullish + 1 }
      else if e.sentiment < 0 then { counts with bearish := counts.bearish + 1 }
      else { counts with neutral := counts.neutral + 1 })
    ⟨0, 0, 0⟩

/-- `SentimentCalculator.resolve_currency_conflicts`. -/
def resolve_currency_conflicts (currency_events : List SentimentData) : CurrencyResolution :=
  if currency_events.isEmpty then
    { final_sentiment := "Neutral"
      final_sentiment_value := 0
      reason := "No events found"
      event_count := 0
      sentiment_breakdown := ⟨0, 0, 0⟩ }
  else
    let c := count_sentiments currency_events
    let total := currency_events.length
    if c.bullish > c.bearish ∧ c.bullish > c.neutral then
      { final_sentiment := "Bullish"
        final_sentiment_value := 1
        reason := "Majority bullish (" ++ toString c.bullish ++ "/" ++ toString total ++ " events)"
        event_count := total
        sentiment_breakdown := c }
    else if c.bearish > c.bullish ∧ c.bearish > c.neutral then
      { final_sentiment := "Bearish"
        final_sentiment_value := -1
        reason := "Majority bearish (" ++ toString c.bearish ++ "/" ++ toString total ++ " events)"
        event_count := total
        sentiment_breakdown := c }
    else if c.neutral > c.bullish ∧ c.neutral > c.bearish then
      { final_sentiment := "Neutral"
        final_sentiment_value := 0
        reason := "Majority neutral (" ++ toString c.neutral ++ "/" ++ toString total ++ " events)"
        event_count := total
        sentiment_breakdown := c }
    else if c.bearish ≥ c.bullish then
      { final_sentiment := "Bearish with Consolidation"
        final_sentiment_value := -1
        reason := "Tie resolved bearish (" ++ toString c.bearish ++ " bearish, " ++
          toString c.bullish ++ " bullish, " ++ toString c.neutral ++ " neutral)"
        event_count := total
        sentiment_breakdown := c }
    else
      { final_sentiment := "Bullish with Consolidation"
        final_sentiment_value := 1
        reason := "Tie resolved bullish (" ++ toString c.bullish ++ " bullish, " ++
          toString c.bearish ++ " bearish, " ++ toString c.neutral ++ " neutral)"
        event_count := total
        sentiment_breakdown := c }

/-- The counting loop of `resolve_actual_currency_conflicts`, keyed on the
`actual_sentiment` entry. -/
def count_actual_sentiments (currency_events : List ActualSentimentData) : SentimentCounts :=
  currency_events.foldl
    (fun counts e =>
      if e.actual_sentiment > 0 then { counts with bullish := counts.bullish + 1 }
      else if e.actual_sentiment < 0 then { counts with bearish := counts.bearish + 1 }
      else { counts with neutral := counts.neutral + 1 })
    ⟨0, 0, 0⟩

/-- `SentimentCalculator.resolve_actual_currency_conflicts`.  Note: the
returned record consists of exactly the five entries the Python code puts in
its result dictionary — there is no data-availability entry. -/
def resolve_actual_currency_conflicts (currency_events : List ActualSentimentData) :
    ActualCurrencyResolution :=
  if currency_events.isEmpty then
    { final_actual_sentiment := "Neutral"
      final_actual_sentiment_value := 0
      actual_reason := "No events with actual data found"
      event_count := 0
      actual_sentiment_breakdown := ⟨0, 0, 0⟩ }
  else
    let c := count_actual_sentiments currency_events
    let total := currency_events.length
    if c.bullish > c.bearish ∧ c.bullish > c.neutral then
      { final_actual_sentiment := "Bullish"
        final_actual_sentiment_value := 1
        actual_reason := "Majority bullish actual sentiment (" ++ toString c.bullish ++ "/" ++
          toString total ++ " events)"
        event_count := total
        actual_sentiment_breakdown := c }
    else if c.bearish > c.bullish ∧ c.bearish > c.neutral then
      { final_actual_sentiment := "Bearish"
        final_actual_sentiment_value := -1
        actual_reason := "Majority bearish actual sentiment (" ++ toString c.bearish ++ "/" ++
          toString total ++ " events)"
        event_count := total
        actual_sentiment_breakdown := c }
    else if c.neutral > c.bullish ∧ c.neutral > c.bearish then
      { final_actual_sentiment := "Neutral"
        final_actual_sentiment_value := 0
        actual_reason := "Majority neutral actual sentiment (" ++ toString c.neutral ++ "/" ++
          toString total ++ " events)"
        event_count := total
        actual_sentiment_breakdown := c }
    else if c.bearish ≥ c.bullish then
      { final_actual_sentiment := "Bearish with Consolidation"
        final_actual_sentiment_value := -1
        actual_reason := "Actual sentiment tie resolved bearish (" ++ toString c.bearish ++
          " bearish, " ++ toString c.bullish ++ " bullish, " ++ toString c.neutral ++ " neutral)"
        event_count := total
        actual_sentiment_breakdown := c }
    else
      { final_actual_sentiment := "Bullish with Consolidation"
        final_actual_sentiment_value := 1
        actual_reason := "Actual sentiment tie resolved bullish (" ++ toString c.bullish ++
          " bullish, " ++ toString c.bearish ++ " bearish, " ++ toString c.neutral ++ " neutral)"
        event_count := total
        actual_sentiment_breakdown := c }

/-! ### Sentiment engine: constructor configuration

`SentimentCalculator.__init__` receives an optional `threshold` argument; when
it is `None` the threshold is parsed from the `SENTIMENT_THRESHOLD` environment
variable (default `"0.0"`, comments after `#` stripped). -/

/-- The environment as seen by `SentimentCalculator.__init__`:
`sentiment_threshold` is the numeric value of the `SENTIMENT_THRESHOLD`
environment variable after comment stripping and `float` parsing, or `none`
when the variable is unset (in which case the code parses the default string
`"0.0"`). -/
structure Env where
  sentiment_threshold : Option ℚ
deriving DecidableEq

/-- The threshold computed by `SentimentCalculator.__init__`:
`threshold if threshold is not None else float(threshold_str)`. -/
def sentiment_calculator_threshold (threshold_arg : Option ℚ) (env : Env) : ℚ :=
  match threshold_arg with
  | some t => t
  | none => env.sentiment_threshold.getD 0

/-- Constructor-determined configuration of `ActualDataCollector`. -/
structure CollectorConfig where
  lookback_days : Nat
  retry_limit : Nat
deriving DecidableEq

/-- `ActualDataCollector.__init__` stores its `lookback_days` and `retry_limit`
arguments unchanged; it reads nothing from the environment (the `env` argument
is ignored, mirroring the absence of any `os.getenv` call). -/
def actual_data_collector_init (lookback_days retry_limit : Nat) (_env : Env) : CollectorConfig :=
  { lookback_days := lookback_days, retry_limit := retry_limit }

/-! ### Reconciliation engine: circuit breaker state machine

Embeds the circuit-breaker fields of `ActualDataCollector` and the methods
`_is_circuit_breaker_open`, `_record_success`, `_record_failure`, and the
breaker-relevant shape of `collect_actual_data_for_event`.  Time is a rational
number of seconds. -/

/-- The mutable circuit-breaker fields of an `ActualDataCollector` instance. -/
structure BreakerState where
  consecutive_failures : Nat
  circuit_breaker_open : Bool
  last_failure_time : Option ℚ
  backoff_multiplier : ℚ
deriving DecidableEq

/-- `self.circuit_breaker_threshold`, set to 5 in `__init__`. -/
def circuit_breaker_threshold : Nat := 5

/-- The breaker fields as initialised by `ActualDataCollector.__init__`. -/
def initial_breaker_state : BreakerState :=
  { consecutive_failures := 0
    circuit_breaker_open := false
    last_failure_time := none
    backoff_multiplier := 1 }

/-- `ActualDataCollector._is_circuit_breaker_open`, with `now` standing for
`datetime.datetime.utcnow()`.  The method also mutates the state when the
15-minute (900 s) cooldown has elapsed, so it returns the new state. -/
def is_circuit_breaker_open (now : ℚ) (s : BreakerState) : Bool × BreakerState :=
  if s.circuit_breaker_open = false then
    (false, s)
  else
    match s.last_failure_time with
    | some t =>
      if now - t > 900 then
        (false,
          { s with
              circuit_breaker_open := false
              consecutive_failures := 0
              backoff_multiplier := 1 })
      else
        (true, s)
    | none => (true, s)

/-- `ActualDataCollector._record_success`. -/
def record_success (s : BreakerState) : BreakerState :=
  { s with
      consecutive_failures := 0
      circuit_breaker_open := false
      backoff_multiplier := max (1 / 2) (s.backoff_multiplier * (9 / 10)) }

/-- `ActualDataCollector._record_failure`, with `now` standing for
`datetime.datetime.utcnow()`. -/
def record_failure (now : ℚ) (s : BreakerState) : BreakerState :=
  let c := s.consecutive_failures + 1
  { s with
      consecutive_failures := c
      last_failure_time := some now
      backoff_multiplier := min 2 (s.backoff_multiplier * (11 / 10))
      circuit_breaker_open := if circuit_breaker_threshold ≤ c then true else s.circuit_breaker_open }

/-- `ActualDataCollector._calculate_backoff_time` with the jitter factor made
an explicit argument (the code draws it from `random.uniform(0.5, 1.5)`). -/
def calculate_backoff_time (backoff_multiplier : ℚ) (retry_count : Nat) (jitter : ℚ) : ℚ :=
  min ((2 ^ retry_count : ℚ) * jitter * backoff_multiplier) 60

/-- Net result of the retry loop inside one `collect_actual_data_for_event`
call, once the breaker check has let it through: the loop either ends by
returning a matched actual value (which calls `_record_success`), ends by
scanning a snapshot without finding a match (returning `None` with no breaker
bookkeeping), or exhausts its retries on exceptions (which calls
`_record_failure`).  The sleeps and attempt counts inside the loop do not touch
the breaker state and are abstracted away. -/
inductive FetchOutcome
  | found (v : ℚ)
  | notFound
  | failed
deriving DecidableEq

/-- Breaker-relevant behaviour of `ActualDataCollector.collect_actual_data_for_event`:
returns the fetched value (if any), whether the Calendar Source collaborator
was invoked at all, and the updated breaker state. -/
def collect_actual_data_for_event (now : ℚ) (outcome : FetchOutcome) (s : BreakerState) :
    Option ℚ × Bool × BreakerState :=
  let check := is_circuit_breaker_open now s
  if check.1 then
    (none, false, check.2)
  else
    match outcome with
    | .found v => (some v, true, record_success check.2)
    | .notFound => (none, true, check.2)
    | .failed => (none, true, record_failure now check.2)

/-! ### Reconciliation engine: title and datetime matching -/

/-- The `variations` replacement table of `ActualDataCollector._events_match`,
applied in order. -/
def title_variations : List (List Char × List Char) :=
  [("m/m".toList, "mom".toList),
   ("y/y".toList, "yoy".toList),
   ("q/q".toList, "qoq".toList),
   ("  ".toList, " ".toList),
   (".".toList, "".toList),
   (",".toList, "".toList)]

/-- One pass of the `for old, new in variations` loop over a single name. -/
def apply_variations (s : List Char) : List Char :=
  title_variations.foldl (fun acc p => py_replace p.1 p.2 acc) s

/-- The normalisation `ActualDataCollector._events_match` applies before its
containment test: lower-case, strip surrounding whitespace, then the variation
replacements. -/
def code_normalize_title (s : String) : List Char :=
  apply_variations (py_strip (py_lower s.toList))

/-- `ActualDataCollector._events_match`. -/
def events_match (event_name1 event_name2 : String) : Bool :=
  if event_name1.isEmpty || event_name2.isEmpty then
    false
  else
    let name1 := py_strip (py_lower event_name1.toList)
    let name2 := py_strip (py_lower event_name2.toList)
    if name1 = name2 then
      true
    else
      let n1 := apply_variations name1
      let n2 := apply_variations name2
      py_contains n1 n2 || py_contains n2 n1

/-- Collapse every run of consecutive spaces to a single space (the usual
reading of the spec's "strip repeated spaces"). -/
def collapse_spaces : List Char → List Char
  | [] => []
  | [c] => [c]
  | c1 :: c2 :: rest =>
    if c1 = ' ' ∧ c2 = ' ' then collapse_spaces (c2 :: rest)
    else c1 :: collapse_spaces (c2 :: rest)

/-- Title normalisation following the specification's words (for comparison
with the code's `_events_match`): "normalize both titles to lower case, strip
repeated spaces/periods/commas, normalize shorthand tokens". -/
def spec_normalize_title (s : String) : List Char :=
  collapse_spaces ((apply_variations (py_lower s.toList)).filter (fun c => c ≠ '.' ∧ c ≠ ','))

/-- The title-match predicate as the specification describes it: equal after
normalisation, or one normalised string a substring of the other. -/
def spec_titles_match (event_name1 event_name2 : String) : Bool :=
  let n1 := spec_normalize_title event_name1
  let n2 := spec_normalize_title event_name2
  n1 = n2 || py_contains n1 n2 || py_contains n2 n1

/-- `ActualDataCollector._datetimes_match`: within 24 hours, with datetimes in
seconds and a missing snapshot datetime never matching. -/
def datetimes_match (datetime1 : ℚ) (datetime2 : Option ℚ) : Bool :=
  match datetime2 with
  | none => false
  | some t2 => |datetime1 - t2| ≤ 24 * 60 * 60

/-! ### Reconciliation engine: indicator store and persistence -/

/-- The actual-value fields of one `indicators` row, the only fields
`update_indicator_with_actual_data` writes. -/
structure StoredIndicator where
  actual_value : Option ℚ
  actual_collected_at : Option ℚ
  is_actual_available : Bool
deriving DecidableEq

/-- The indicator table, keyed by indicator id; `store_update` touches the
first row with the given id, matching the `.filter(...).first()` lookup. -/
abbrev IndicatorStore := List (Nat × StoredIndicator)

/-- Point update of the store: find the indicator row, set its actual value,
its actual-observed timestamp, and the availability flag.  Returns whether a
row was found together with the new store. -/
def store_update (store : IndicatorStore) (indicator_id : Nat) (actual_value now : ℚ) :
    Bool × IndicatorStore :=
  match store with
  | [] => (false, [])
  | (id, ind) :: rest =>
    if id = indicator_id then
      (true,
        (id, { actual_value := some actual_value
               actual_collected_at := some now
               is_actual_available := true }) :: rest)
    else
      let r := store_update rest indicator_id actual_value now
      (r.1, (id, ind) :: r.2)

/-- `ActualDataCollector.update_indicator_with_actual_data`, with `now`
standing for `datetime.datetime.utcnow()` and `db_ok` the net outcome of the
three commit attempts: when every attempt raises, the transaction is rolled
back and the store is unchanged; when the indicator id is unknown the method
returns `False` without writing. -/
def update_indicator_with_actual_data (db_ok : Bool) (store : IndicatorStore)
    (indicator_id : Nat) (actual_value now : ℚ) : Bool × IndicatorStore :=
  if db_ok then store_update store indicator_id actual_value now
  else (false, store)

/-! ### Reconciliation engine: the run loop -/

/-- One pending event as returned by `get_events_missing_actual_data`,
together with the failure-pattern oracle for its processing: `fetch_result` is
the value `collect_actual_data_for_event` ends up returning for it (`none`
covering both no-match and contained fetch failures), and `persist_ok` is
whether the storage layer accepts the write for it. -/
structure PendingEvent where
  event_id : Nat
  indicator_id : Nat
  fetch_result : Option ℚ
  persist_ok : Bool
deriving DecidableEq

/-- The body of the `for` loop of `collect_all_missing_actual_data`, folded
over the pending events: carry the successful-update counter and the store. -/
def collect_step (now : ℚ) (acc : Nat × IndicatorStore) (ev : PendingEvent) :
    Nat × IndicatorStore :=
  match ev.fetch_result with
  | none => acc
  | some v =>
    let r := update_indicator_with_actual_data ev.persist_ok acc.2 ev.indicator_id v now
    (if r.1 then acc.1 + 1 else acc.1, r.2)

/-- `ActualDataCollector.collect_all_missing_actual_data` (the `run()`
operation): `query` is the result of the pending-event query, whose failure is
the only exception the method lets escape; on success it processes every
pending event in order and returns `(total_processed, successful_updates)`
together with the final store. -/
def collect_all_missing_actual_data (query : Except String (List PendingEvent))
    (store : IndicatorStore) (now : ℚ) : Except String (Nat × Nat × IndicatorStore) :=
  match query with
  | .error e => .error e
  | .ok events =>
    let final := events.foldl (collect_step now) (0, store)
    .ok (events.length, final.1, final.2)

/-! ## Theorems about the claims -/

/-- C1: Equality asymmetry — when both values are present, the title contains
no speaking keyword, and the two values differ by at most `1e-10`, the
forecast-based `calculate_event_sentiment` returns sentiment +1 with label
"Bullish", while the actual-based `calculate_actual_event_sentiment` on the
same numeric inputs returns sentiment 0 with label "Neutral". -/
theorem C1_equality_asymmetry (eid1 eid2 : Nat) (p f thr : ℚ) (av fc : Option ℚ)
    (name : String)
    (hspeak : is_speaking_event name = false)
    (habs : |f - p| ≤ 1 / 10 ^ 10) :
    (calculate_event_sentiment thr ⟨eid1, some p, some f, av, name⟩).sentiment = 1 ∧
    (calculate_event_sentiment thr ⟨eid1, some p, some f, av, name⟩).sentiment_label = "Bullish" ∧
    (calculate_actual_event_sentiment thr ⟨eid2, some p, fc, some f, name⟩).actual_sentiment = 0 ∧
    (calculate_actual_event_sentiment thr ⟨eid2, some p, fc, some f, name⟩).actual_sentiment_label
      = "Neutral" := by
  have habs' : |f - p| ≤ ((10 : ℚ) ^ 10)⁻¹ := by rw [← one_div]; exact habs
  refine ⟨?_, ?_, ?_, ?_⟩ <;>
    cases fc <;>
      simp [calculate_event_sentiment, calculate_actual_event_sentiment, hspeak, habs, habs']

/-- C1 witness: the concrete spec example `previous = 2.0`, `forecast = 2.0`,
title "CPI y/y". -/
theorem C1_equality_asymmetry_witness :
    (calculate_event_sentiment 0 ⟨0, some 2, some 2, none, "CPI y/y"⟩).sentiment = 1 ∧
    (calculate_event_sentiment 0 ⟨0, some 2, some 2, none, "CPI y/y"⟩).sentiment_label = "Bullish" ∧
    (calculate_actual_event_sentiment 0 ⟨0, some 2, none, some 2, "CPI y/y"⟩).actual_sentiment = 0 ∧
    (calculate_actual_event_sentiment 0 ⟨0, some 2, none, some 2, "CPI y/y"⟩).actual_sentiment_label
      = "Neutral" :=
  C1_equality_asymmetry 0 0 2 2 0 none none "CPI y/y" (by decide) (by norm_num)

/-- C3 counterexample: the speaking-event rule is applied by the actual-based
variant as well.  On a speaking title with both values present (where the
directional computation would give +1, since actual 2 > previous 1 with
threshold 0), `calculate_actual_event_sentiment` returns sentiment 0 with the
speaking-event reason instead of a directional sentiment. -/
theorem C3_counterexample :
    is_speaking_event "Fed Chair speaks" = true ∧
    (calculate_actual_event_sentiment 0 ⟨0, some 1, none, some 2, "Fed Chair speaks"⟩).actual_sentiment
      = 0 ∧
    (calculate_actual_event_sentiment 0 ⟨0, some 1, none, some 2, "Fed Chair speaks"⟩).actual_reason
      = some "Speaking event - no directional sentiment" ∧
    (0 : Int) ≠ 1 := by
  refine ⟨by decide, ?_, ?_, by decide⟩ <;>
    simp [calculate_actual_event_sentiment, show is_speaking_event "Fed Chair speaks" = true by decide]

/-- C3 amended: the speaking-event rule applies to BOTH variants — for every
event with both values present whose title contains a speaking keyword, the
forecast-based and the actual-based calculators each return sentiment 0, label
"Neutral", reason "Speaking event - no directional sentiment". -/
theorem C3_speaking_rule_both_variants (eid1 eid2 : Nat) (p c thr : ℚ) (av fc : Option ℚ)
    (name : String) (hspeak : is_speaking_event name = true) :
    (calculate_event_sentiment thr ⟨eid1, some p, some c, av, name⟩).sentiment = 0 ∧
    (calculate_event_sentiment thr ⟨eid1, some p, some c, av, name⟩).sentiment_label = "Neutral" ∧
    (calculate_event_sentiment thr ⟨eid1, some p, some c, av, name⟩).reason
      = some "Speaking event - no directional sentiment" ∧
    (calculate_actual_event_sentiment thr ⟨eid2, some p, fc, some c, name⟩).actual_sentiment = 0 ∧
    (calculate_actual_event_sentiment thr ⟨eid2, some p, fc, some c, name⟩).actual_sentiment_label
      = "Neutral" ∧
    (calculate_actual_event_sentiment thr ⟨eid2, some p, fc, some c, name⟩).actual_reason
      = some "Speaking event - no directional sentiment" := by
  refine ⟨?_, ?_, ?_, ?_, ?_, ?_⟩ <;>
    cases fc <;>
      simp [calculate_event_sentiment, calculate_actual_event_sentiment, hspeak]

/-- C3 witness: a concrete speaking event evaluated through the amended
theorem. -/
theorem C3_speaking_rule_both_variants_witness :
    (calculate_event_sentiment 0 ⟨0, some 1, some 2, none, "FOMC Press Conference"⟩).sentiment = 0 ∧
    (calculate_event_sentiment 0 ⟨0, some 1, some 2, none, "FOMC Press Conference"⟩).sentiment_label
      = "Neutral" ∧
    (calculate_event_sentiment 0 ⟨0, some 1, some 2, none, "FOMC Press Conference"⟩).reason
      = some "Speaking event - no directional sentiment" ∧
    (calculate_actual_event_sentiment 0 ⟨0, some 1, none, some 2, "FOMC Press Conference"⟩).actual_sentiment
      = 0 ∧
    (calculate_actual_event_sentiment 0 ⟨0, some 1, none, some 2, "FOMC Press Conference"⟩).actual_sentiment_label
      = "Neutral" ∧
    (calculate_actual_event_sentiment 0 ⟨0, some 1, none, some 2, "FOMC Press Conference"⟩).actual_reason
      = some "Speaking event - no directional sentiment" :=
  C3_speaking_rule_both_variants 0 0 1 2 0 none none "FOMC Press Conference" (by decide)

/-- C4 counterexample: when the two values are equal, the forecast-based
calculator returns +1 for inverse and non-inverse titles alike (the equality
branch precedes the inverse branch), so the inverse sentiment is not the
negation of the non-inverse one for every pair of numeric inputs. -/
theorem C4_counterexample :
    is_inverse_indicator "Unemployment Rate" = true ∧
    is_speaking_event "Unemployment Rate" = false ∧
    is_inverse_indicator "CPI y/y" = false ∧
    is_speaking_event "CPI y/y" = false ∧
    ¬ ((calculate_event_sentiment 0 ⟨0, some 2, some 2, none, "Unemployment Rate"⟩).sentiment
        = - (calculate_event_sentiment 0 ⟨0, some 2, some 2, none, "CPI y/y"⟩).sentiment) := by
  have h1 : (calculate_event_sentiment 0 ⟨0, some 2, some 2, none, "Unemployment Rate"⟩).sentiment
      = 1 := by
    simp [calculate_event_sentiment, show is_speaking_event "Unemployment Rate" = false by decide]
  have h2 : (calculate_event_sentiment 0 ⟨0, some 2, some 2, none, "CPI y/y"⟩).sentiment = 1 := by
    simp [calculate_event_sentiment, show is_speaking_event "CPI y/y" = false by decide]
  exact ⟨by decide, by decide, by decide, by decide, by rw [h1, h2]; decide⟩

/-- C4 amended: inverse negation holds whenever the two values differ by more
than the `1e-10` equality tolerance — for both values present, a non-speaking
inverse title, and a non-speaking non-inverse title, the sentiment under the
inverse title is the negation of the sentiment under the non-inverse title
(same numeric inputs, same threshold). -/
theorem C4_inverse_negation (eid1 eid2 : Nat) (p c thr : ℚ) (av1 av2 : Option ℚ)
    (name_inv name_base : String)
    (hinv : is_inverse_indicator name_inv = true)
    (hs1 : is_speaking_event name_inv = false)
    (hninv : is_inverse_indicator name_base = false)
    (hs2 : is_speaking_event name_base = false)
    (habs : 1 / 10 ^ 10 < |c - p|) :
    (calculate_event_sentiment thr ⟨eid1, some p, some c, av1, name_inv⟩).sentiment
      = - (calculate_event_sentiment thr ⟨eid2, some p, some c, av2, name_base⟩).sentiment := by
  have hne : ¬ (|c - p| ≤ 1 / 10 ^ 10) := not_le.mpr habs
  simp only [calculate_event_sentiment, hinv, hs1, hninv, hs2, hne, if_false, if_true,
    Bool.false_eq_true, Bool.true_eq_false]
  split_ifs <;> simp

/-- C4 witness: previous 1, forecast 3, threshold 0, inverse title
"Unemployment Rate" against non-inverse title "CPI y/y". -/
theorem C4_inverse_negation_witness :
    (calculate_event_sentiment 0 ⟨0, some 1, some 3, none, "Unemployment Rate"⟩).sentiment
      = - (calculate_event_sentiment 0 ⟨0, some 1, some 3, none, "CPI y/y"⟩).sentiment :=
  C4_inverse_negation 0 0 1 3 0 none none "Unemployment Rate" "CPI y/y"
    (by decide) (by decide) (by decide) (by decide) (by norm_num)

/-- The counting loop agrees with `countP` on each bucket, for any starting
accumulator. -/
lemma count_sentiments_foldl (l : List SentimentData) (acc : SentimentCounts) :
    l.foldl
      (fun counts e =>
        if e.sentiment > 0 then { counts with bullish := counts.bullish + 1 }
        else if e.sentiment < 0 then { counts with bearish := counts.bearish + 1 }
        else { counts with neutral := counts.neutral + 1 }) acc =
    ⟨acc.bullish + l.countP (fun e => decide (0 < e.sentiment)),
     acc.bearish + l.countP (fun e => decide (e.sentiment < 0)),
     acc.neutral + l.countP (fun e => decide (e.sentiment = 0))⟩ := by
  induction l generalizing acc with
  | nil => simp
  | cons e t ih =>
    simp only [List.foldl_cons, List.countP_cons, ih]
    rcases lt_trichotomy e.sentiment 0 with h | h | h
    · have h1 : ¬ (0 < e.sentiment) := by omega
      have h2 : ¬ (e.sentiment = 0) := by omega
      simp [h, h1, h2]
      omega
    · simp [h]
      omega
    · have h1 : ¬ (e.sentiment < 0) := by omega
      have h2 : ¬ (e.sentiment = 0) := by omega
      simp [h, h1, h2]
      omega

/-- `count_sentiments` computes the `countP`-style per-bucket totals. -/
lemma count_sentiments_eq (l : List SentimentData) :
    count_sentiments l =
    ⟨l.countP (fun e => decide (0 < e.sentiment)),
     l.countP (fun e => decide (e.sentiment < 0)),
     l.countP (fun e => decide (e.sentiment = 0))⟩ := by
  simpa using count_sentiments_foldl l ⟨0, 0, 0⟩

/-- C2: Conflict resolution — counting events by the sign of their sentiment,
a bucket strictly exceeding both others yields "Bullish"/"Bearish"/"Neutral"
with value +1/−1/0; with no strict plurality, bearish ≥ bullish yields
"Bearish with Consolidation" (−1), otherwise "Bullish with Consolidation"
(+1); the empty list yields "Neutral", 0, "No events found", count 0, and an
all-zero breakdown. -/
theorem C2_resolve_currency_conflicts (l : List SentimentData) :
    (resolve_currency_conflicts l).event_count = l.length ∧
    (resolve_currency_conflicts l).sentiment_breakdown =
      ⟨l.countP (fun e => decide (0 < e.sentiment)),
       l.countP (fun e => decide (e.sentiment < 0)),
       l.countP (fun e => decide (e.sentiment = 0))⟩ ∧
    (l = [] →
      resolve_currency_conflicts l = ⟨"Neutral", 0, "No events found", 0, ⟨0, 0, 0⟩⟩) ∧
    (let b := l.countP (fun e => decide (0 < e.sentiment))
     let r := l.countP (fun e => decide (e.sentiment < 0))
     let n := l.countP (fun e => decide (e.sentiment = 0))
     (b > r → b > n →
        (resolve_currency_conflicts l).final_sentiment = "Bullish" ∧
        (resolve_currency_conflicts l).final_sentiment_value = 1) ∧
     (r > b → r > n →
        (resolve_currency_conflicts l).final_sentiment = "Bearish" ∧
        (resolve_currency_conflicts l).final_sentiment_value = -1) ∧
     (l ≠ [] → n > b → n > r →
        (resolve_currency_conflicts l).final_sentiment = "Neutral" ∧
        (resolve_currency_conflicts l).final_sentiment_value = 0) ∧
     (l ≠ [] → ¬ (b > r ∧ b > n) → ¬ (r > b ∧ r > n) → ¬ (n > b ∧ n > r) →
        (r ≥ b →
          (resolve_currency_conflicts l).final_sentiment = "Bearish with Consolidation" ∧
          (resolve_currency_conflicts l).final_sentiment_value = -1) ∧
        (r < b →
          (resolve_currency_conflicts l).final_sentiment = "Bullish with Consolidation" ∧
          (resolve_currency_conflicts l).final_sentiment_value = 1))) := by
  rcases l with _ | ⟨e, t⟩
  · refine ⟨rfl, by simp [resolve_currency_conflicts], fun _ => rfl, ?_⟩
    refine ⟨?_, ?_, ?_, ?_⟩ <;> simp [resolve_currency_conflicts]
  · have hne : (e :: t).isEmpty = false := rfl
    refine ⟨?_, ?_, by simp, ?_⟩
    · simp only [resolve_currency_conflicts, hne, Bool.false_eq_true, if_false]
      split_ifs <;> rfl
    · simp only [resolve_currency_conflicts, hne, Bool.false_eq_true, if_false,
        count_sentiments_eq]
      split_ifs <;> rfl
    · simp only [resolve_currency_conflicts, hne, Bool.false_eq_true, if_false,
        count_sentiments_eq]
      refine ⟨fun h1 h2 => ?_, fun h1 h2 => ?_, fun _ h1 h2 => ?_, fun _ hb hr hn => ⟨fun h => ?_, fun h => ?_⟩⟩
      · rw [if_pos ⟨h1, h2⟩]
        exact ⟨rfl, rfl⟩
      · rw [if_neg (by omega), if_pos ⟨h1, h2⟩]
        exact ⟨rfl, rfl⟩
      · rw [if_neg (by omega), if_neg (by omega), if_pos ⟨h1, h2⟩]
        exact ⟨rfl, rfl⟩
      · rw [if_neg (by omega), if_neg (by omega), if_neg (by omega), if_pos (by omega)]
        exact ⟨rfl, rfl⟩
      · rw [if_neg (by omega), if_neg (by omega), if_neg (by omega), if_neg (by omega)]
        exact ⟨rfl, rfl⟩

/-- C2 witness: the spec's tie example — one bullish and one bearish event
resolve to "Bearish with Consolidation" with value −1. -/
theorem C2_resolve_currency_conflicts_witness :
    (resolve_currency_conflicts
        [⟨0, "", none, none, 1, "Bullish", true, none, false⟩,
         ⟨1, "", none, none, -1, "Bearish", true, none, false⟩]).final_sentiment
      = "Bearish with Consolidation" ∧
    (resolve_currency_conflicts
        [⟨0, "", none, none, 1, "Bullish", true, none, false⟩,
         ⟨1, "", none, none, -1, "Bearish", true, none, false⟩]).final_sentiment_value = -1 :=
  ((C2_resolve_currency_conflicts
      [⟨0, "", none, none, 1, "Bullish", true, none, false⟩,
       ⟨1, "", none, none, -1, "Bearish", true, none, false⟩]).2.2.2.2.2.2
    (by decide) (by decide) (by decide) (by decide)).1 (by decide)

/-- A list always contains itself as a substring. -/
lemma py_contains_self (l : List Char) : py_contains l l = true := by
  cases l with
  | nil => rfl
  | cons c t => simp [py_contains, List.isPrefixOf_iff_prefix]

/-- C5 counterexample: the specification's normalisation collapses runs of
repeated spaces, but the code's single left-to-right `replace("  ", " ")`
pass only halves them, so titles four spaces apart match per the spec's rule
but not per `_events_match`. -/
theorem C5_counterexample :
    spec_titles_match "a    b" "a b" = true ∧
    events_match "a    b" "a b" = false := by
  decide

/-- C5 amended: for non-empty titles, `_events_match` holds exactly when the
code-normalised titles (lower case, surrounding whitespace stripped, then one
left-to-right pass each of `m/m`→`mom`, `y/y`→`yoy`, `q/q`→`qoq`,
`"  "`→`" "`, `.`→``, `,`→``) are equal or one is a substring of the other;
in particular "Core PCE Price Index m/m" matches "core pce price index mom"
and "CPI y/y" does not match "GDP q/q". -/
theorem C5_title_matching :
    (∀ s1 s2 : String, s1.isEmpty = false → s2.isEmpty = false →
      events_match s1 s2 =
        (code_normalize_title s1 = code_normalize_title s2 ||
         py_contains (code_normalize_title s1) (code_normalize_title s2) ||
         py_contains (code_normalize_title s2) (code_normalize_title s1))) ∧
    events_match "Core PCE Price Index m/m" "core pce price index mom" = true ∧
    events_match "CPI y/y" "GDP q/q" = false := by
  refine ⟨?_, by decide, by decide⟩
  intro s1 s2 h1 h2
  unfold events_match code_normalize_title
  rw [h1, h2]
  simp only [Bool.or_self, Bool.false_or, if_false, Bool.false_eq_true]
  by_cases heq : py_strip (py_lower s1.toList) = py_strip (py_lower s2.toList)
  · rw [if_pos heq, heq]
    simp [py_contains_self]
  · rw [if_neg heq]
    by_cases hveq : apply_variations (py_strip (py_lower s1.toList))
        = apply_variations (py_strip (py_lower s2.toList))
    · rw [hveq]
      simp [py_contains_self]
    · rw [decide_eq_false hveq, Bool.false_or]

/-- C5 witness: the amended characterisation applied to the concrete matching
pair of titles. -/
theorem C5_title_matching_witness :
    events_match "Core PCE Price Index m/m" "core pce price index mom" =
      (code_normalize_title "Core PCE Price Index m/m"
          = code_normalize_title "core pce price index mom" ||
       py_contains (code_normalize_title "Core PCE Price Index m/m")
         (code_normalize_title "core pce price index mom") ||
       py_contains (code_normalize_title "core pce price index mom")
         (code_normalize_title "Core PCE Price Index m/m")) :=
  C5_title_matching.1 "Core PCE Price Index m/m" "core pce price index mom"
    (by decide) (by decide)

/-- C6: Circuit breaker — a failure recorded on top of 4 consecutive failures
reaches the threshold of 5 and opens the breaker; while the breaker is open
and at most 15 minutes (900 s) have passed since the last failure, a resolve
call returns absent immediately without invoking the Calendar Source and
leaves the state unchanged; once strictly more than 900 s have passed, the
breaker check closes the breaker and resets the consecutive-failure count and
backoff multiplier to baseline, and the resolve call invokes the source again;
every success zeroes the failure count and multiplies the backoff multiplier
by 0.9 with floor 0.5; every failure multiplies it by 1.1 with ceiling 2.0. -/
theorem C6_circuit_breaker :
    (∀ (s : BreakerState) (now : ℚ), s.consecutive_failures = 4 →
      (record_failure now s).circuit_breaker_open = true ∧
      (record_failure now s).consecutive_failures = 5) ∧
    (∀ (s : BreakerState) (t now : ℚ) (o : FetchOutcome),
      s.circuit_breaker_open = true → s.last_failure_time = some t → now - t ≤ 900 →
      collect_actual_data_for_event now o s = (none, false, s)) ∧
    (∀ (s : BreakerState) (t now : ℚ) (o : FetchOutcome),
      s.circuit_breaker_open = true → s.last_failure_time = some t → 900 < now - t →
      is_circuit_breaker_open now s =
        (false,
          { s with
              circuit_breaker_open := false
              consecutive_failures := 0
              backoff_multiplier := 1 }) ∧
      (collect_actual_data_for_event now o s).2.1 = true) ∧
    (∀ s : BreakerState,
      (record_success s).consecutive_failures = 0 ∧
      (record_success s).backoff_multiplier = max (1 / 2) (s.backoff_multiplier * (9 / 10))) ∧
    (∀ (s : BreakerState) (now : ℚ),
      (record_failure now s).backoff_multiplier = min 2 (s.backoff_multiplier * (11 / 10)) ∧
      (record_failure now s).consecutive_failures = s.consecutive_failures + 1) := by
  refine ⟨?_, ?_, ?_, ?_, ?_⟩
  · intro s now h
    simp [record_failure, h, circuit_breaker_threshold]
  · intro s t now o hopen hlast hle
    have hcheck : is_circuit_breaker_open now s = (true, s) := by
      simp [is_circuit_breaker_open, hopen, hlast, not_lt.mpr hle]
    simp [collect_actual_data_for_event, hcheck]
  · intro s t now o hopen hlast hgt
    have hcheck : is_circuit_breaker_open now s =
        (false,
          { s with
              circuit_breaker_open := false
              consecutive_failures := 0
              backoff_multiplier := 1 }) := by
      simp [is_circuit_breaker_open, hopen, hlast, hgt]
    refine ⟨hcheck, ?_⟩
    cases o <;> simp [collect_actual_data_for_event, hcheck]
  · intro s
    exact ⟨rfl, rfl⟩
  · intro s now
    exact ⟨rfl, rfl⟩

/-- C6 witness: a concrete run through each clause — the 5th failure opens the
breaker, a call 100 s later short-circuits, a call 1000 s later resets and
invokes the source, and the multiplier updates evaluate as stated. -/
theorem C6_circuit_breaker_witness :
    ((record_failure 7 ⟨4, false, some 0, 1⟩).circuit_breaker_open = true ∧
      (record_failure 7 ⟨4, false, some 0, 1⟩).consecutive_failures = 5) ∧
    collect_actual_data_for_event 100 FetchOutcome.notFound ⟨5, true, some 0, 1⟩ =
      (none, false, ⟨5, true, some 0, 1⟩) ∧
    (is_circuit_breaker_open 1000 ⟨5, true, some 0, 1⟩ = (false, ⟨0, false, some 0, 1⟩) ∧
      (collect_actual_data_for_event 1000 FetchOutcome.notFound ⟨5, true, some 0, 1⟩).2.1 = true) ∧
    ((record_success ⟨0, false, some 0, 1⟩).consecutive_failures = 0 ∧
      (record_success ⟨0, false, some 0, 1⟩).backoff_multiplier = max (1 / 2) ((1 : ℚ) * (9 / 10))) ∧
    ((record_failure 7 ⟨0, false, none, 1⟩).backoff_multiplier = min 2 ((1 : ℚ) * (11 / 10)) ∧
      (record_failure 7 ⟨0, false, none, 1⟩).consecutive_failures = 0 + 1) :=
  ⟨C6_circuit_breaker.1 ⟨4, false, some 0, 1⟩ 7 rfl,
   C6_circuit_breaker.2.1 ⟨5, true, some 0, 1⟩ 0 100 FetchOutcome.notFound rfl rfl (by norm_num),
   C6_circuit_breaker.2.2.1 ⟨5, true, some 0, 1⟩ 0 1000 FetchOutcome.notFound rfl rfl (by norm_num),
   C6_circuit_breaker.2.2.2.1 ⟨0, false, some 0, 1⟩,
   C6_circuit_breaker.2.2.2.2 ⟨0, false, none, 1⟩ 7⟩

/-- An indicator row is persisted in the store: it is present, flagged
available, and carries an actual value. -/
def value_persisted (store : IndicatorStore) (j : Nat) : Prop :=
  ∃ ind, List.lookup j store = some ind ∧
    ind.is_actual_available = true ∧ ind.actual_value.isSome = true

/-- Association-list lookup finds the head row when the key matches. -/
lemma lookup_cons_self (a : Nat) (b : StoredIndicator) (l : IndicatorStore) :
    List.lookup a ((a, b) :: l) = some b := by
  simp [List.lookup]

/-- Association-list lookup skips the head row when the key differs. -/
lemma lookup_cons_ne (a k : Nat) (b : StoredIndicator) (l : IndicatorStore) (h : a ≠ k) :
    List.lookup a ((k, b) :: l) = List.lookup a l := by
  have hb : (a == k) = false := beq_eq_false_iff_ne.mpr h
  simp [List.lookup, hb]

/-- `store_update` never adds or removes rows. -/
lemma store_update_keys (store : IndicatorStore) (j : Nat) (v t : ℚ) :
    ((store_update store j v t).2).map Prod.fst = store.map Prod.fst := by
  induction store with
  | nil => rfl
  | cons hd rest ih =>
    obtain ⟨i, ind⟩ := hd
    by_cases h : i = j
    · simp [store_update, h]
    · simp [store_update, h, ih]

/-- Unfolding `store_update` on a matching head row. -/
lemma store_update_cons_eq (i : Nat) (ind : StoredIndicator) (rest : IndicatorStore) (v t : ℚ) :
    store_update ((i, ind) :: rest) i v t =
      (true, (i, ⟨some v, some t, true⟩) :: rest) := by
  rw [store_update]
  simp

/-- Unfolding `store_update` on a non-matching head row. -/
lemma store_update_cons_ne (i j : Nat) (ind : StoredIndicator) (rest : IndicatorStore)
    (v t : ℚ) (h : i ≠ j) :
    store_update ((i, ind) :: rest) j v t =
      ((store_update rest j v t).1, (i, ind) :: (store_update rest j v t).2) := by
  rw [store_update]
  simp [h]

/-- Updating a present row makes it persisted and reports success. -/
lemma store_update_sets (store : IndicatorStore) (j : Nat) (v t : ℚ)
    (hmem : j ∈ store.map Prod.fst) :
    (store_update store j v t).1 = true ∧
    List.lookup j (store_update store j v t).2 = some ⟨some v, some t, true⟩ := by
  induction store with
  | nil => simp at hmem
  | cons hd rest ih =>
    obtain ⟨i, ind⟩ := hd
    by_cases h : i = j
    · subst h
      rw [store_update_cons_eq]
      exact ⟨rfl, lookup_cons_self i _ rest⟩
    · have hmem' : j ∈ rest.map Prod.fst := by
        simpa [Ne.symm h] using hmem
      have hr := ih hmem'
      rw [store_update_cons_ne i j ind rest v t h]
      exact ⟨hr.1, by rw [lookup_cons_ne j i ind _ (Ne.symm h)]; exact hr.2⟩

/-- `store_update` never unpersists a row. -/
lemma store_update_preserves (store : IndicatorStore) (j k : Nat) (v t : ℚ)
    (h : value_persisted store k) :
    value_persisted (store_update store j v t).2 k := by
  induction store with
  | nil => exact h
  | cons hd rest ih =>
    obtain ⟨i, ind⟩ := hd
    by_cases hij : i = j
    · subst hij
      by_cases hk : k = i
      · subst hk
        exact ⟨⟨some v, some t, true⟩,
          by rw [store_update_cons_eq]; exact lookup_cons_self k _ rest, rfl, rfl⟩
      · obtain ⟨ind0, hlook, hav, hval⟩ := h
        rw [lookup_cons_ne k i ind rest hk] at hlook
        refine ⟨ind0, ?_, hav, hval⟩
        rw [store_update_cons_eq]
        rw [lookup_cons_ne k i _ rest hk]
        exact hlook
    · by_cases hk : k = i
      · subst hk
        obtain ⟨ind0, hlook, hav, hval⟩ := h
        rw [lookup_cons_self] at hlook
        refine ⟨ind0, ?_, hav, hval⟩
        rw [store_update_cons_ne k j ind rest v t hij]
        rw [lookup_cons_self]
        exact hlook.symm ▸ rfl
      · obtain ⟨ind0, hlook, hav, hval⟩ := h
        rw [lookup_cons_ne k i ind rest hk] at hlook
        obtain ⟨ind1, hlook1, hav1, hval1⟩ := ih ⟨ind0, hlook, hav, hval⟩
        refine ⟨ind1, ?_, hav1, hval1⟩
        rw [store_update_cons_ne i j ind rest v t hij]
        rw [lookup_cons_ne k i ind _ hk]
        exact hlook1

/-- One loop iteration never adds or removes rows. -/
lemma collect_step_keys (now : ℚ) (acc : Nat × IndicatorStore) (ev : PendingEvent) :
    ((collect_step now acc ev).2).map Prod.fst = acc.2.map Prod.fst := by
  rcases ev with ⟨eid, iid, fr, pok⟩
  cases fr with
  | none => rfl
  | some v =>
    cases pok <;>
      simp [collect_step, update_indicator_with_actual_data, store_update_keys]

/-- One loop iteration never unpersists a row. -/
lemma collect_step_preserves (now : ℚ) (acc : Nat × IndicatorStore) (ev : PendingEvent)
    (k : Nat) (h : value_persisted acc.2 k) :
    value_persisted (collect_step now acc ev).2 k := by
  rcases ev with ⟨eid, iid, fr, pok⟩
  cases fr with
  | none => exact h
  | some v =>
    cases pok with
    | false => exact h
    | true =>
      simpa [collect_step, update_indicator_with_actual_data] using
        store_update_preserves acc.2 iid k v now h

/-- A fetch-and-persist success for a present indicator persists it. -/
lemma collect_step_sets (now : ℚ) (acc : Nat × IndicatorStore) (ev : PendingEvent) (v : ℚ)
    (hfr : ev.fetch_result = some v) (hok : ev.persist_ok = true)
    (hmem : ev.indicator_id ∈ acc.2.map Prod.fst) :
    value_persisted (collect_step now acc ev).2 ev.indicator_id := by
  rcases ev with ⟨eid, iid, fr, pok⟩
  cases hfr
  cases hok
  have := store_update_sets acc.2 iid v now hmem
  exact ⟨⟨some v, some now, true⟩,
    by simp [collect_step, update_indicator_with_actual_data, this.2], rfl, rfl⟩

/-- The run loop never adds or removes rows. -/
lemma collect_foldl_keys (now : ℚ) (events : List PendingEvent) (acc : Nat × IndicatorStore) :
    ((events.foldl (collect_step now) acc).2).map Prod.fst = acc.2.map Prod.fst := by
  induction events generalizing acc with
  | nil => rfl
  | cons ev t ih => rw [List.foldl_cons, ih, collect_step_keys]

/-- The run loop never unpersists a row. -/
lemma collect_foldl_preserves (now : ℚ) (events : List PendingEvent)
    (acc : Nat × IndicatorStore) (k : Nat) (h : value_persisted acc.2 k) :
    value_persisted ((events.foldl (collect_step now) acc)).2 k := by
  induction events generalizing acc with
  | nil => exact h
  | cons ev t ih =>
    rw [List.foldl_cons]
    exact ih _ (collect_step_preserves now acc ev k h)

/-- If some event in the loop fetches a value for a present indicator and its
persist succeeds, the indicator is persisted in the final store. -/
lemma collect_foldl_sets (now : ℚ) (events : List PendingEvent)
    (acc : Nat × IndicatorStore) (j : Nat)
    (hmem : j ∈ acc.2.map Prod.fst)
    (hev : ∃ ev ∈ events, ev.indicator_id = j ∧ ev.fetch_result ≠ none ∧ ev.persist_ok = true) :
    value_persisted ((events.foldl (collect_step now) acc)).2 j := by
  induction events generalizing acc with
  | nil => simp at hev
  | cons e t ih =>
    rw [List.foldl_cons]
    obtain ⟨ev, hin, hid, hfr, hok⟩ := hev
    rcases List.mem_cons.mp hin with rfl | hint
    · obtain ⟨v, hv⟩ := Option.ne_none_iff_exists'.mp hfr
      subst hid
      exact collect_foldl_preserves now t _ _
        (collect_step_sets now acc ev v hv hok hmem)
    · exact ih _ (by rw [collect_step_keys]; exact hmem) ⟨ev, hint, hid, hfr, hok⟩

/-- C7: run() error containment and partial progress — when the pending-event
query fails, `collect_all_missing_actual_data` propagates the error; for every
pending-event list and every pattern of per-event fetch or persist failures it
returns `(processed, updated)` with `processed` the number of pending events,
never raising; and every indicator present in the store for which some event
fetched a value whose persist succeeded is persisted (flagged available with
an actual value) in the final store, whatever happened to later events. -/
theorem C7_run_containment :
    (∀ (e : String) (store : IndicatorStore) (now : ℚ),
      collect_all_missing_actual_data (Except.error e) store now = Except.error e) ∧
    (∀ (events : List PendingEvent) (store : IndicatorStore) (now : ℚ),
      ∃ updated final_store,
        collect_all_missing_actual_data (Except.ok events) store now =
          Except.ok (events.length, updated, final_store)) ∧
    (∀ (events : List PendingEvent) (store : IndicatorStore) (now : ℚ) (j : Nat),
      j ∈ store.map Prod.fst →
      (∃ ev ∈ events, ev.indicator_id = j ∧ ev.fetch_result ≠ none ∧ ev.persist_ok = true) →
      ∃ updated final_store,
        collect_all_missing_actual_data (Except.ok events) store now =
          Except.ok (events.length, updated, final_store) ∧
        value_persisted final_store j) := by
  refine ⟨fun e store now => rfl, fun events store now => ⟨_, _, rfl⟩, ?_⟩
  intro events store now j hmem hev
  exact ⟨_, _, rfl, collect_foldl_sets now events (0, store) j hmem hev⟩

/-- C7 witness: two pending events, the second of which fails to persist; the
run returns `(2, updated, final)` and the first indicator is persisted. -/
theorem C7_run_containment_witness :
    ∃ updated final_store,
      collect_all_missing_actual_data
          (Except.ok [⟨10, 1, some 5, true⟩, ⟨11, 2, some 6, false⟩])
          [(1, ⟨none, none, false⟩), (2, ⟨none, none, false⟩)] 0 =
        Except.ok (2, updated, final_store) ∧
      value_persisted final_store 1 :=
  C7_run_containment.2.2 [⟨10, 1, some 5, true⟩, ⟨11, 2, some 6, false⟩]
    [(1, ⟨none, none, false⟩), (2, ⟨none, none, false⟩)] 0 1
    (by decide)
    ⟨⟨10, 1, some 5, true⟩, by simp, rfl, by simp, rfl⟩

/-- C8 counterexample: `SentimentCalculator.__init__` reads the
`SENTIMENT_THRESHOLD` environment variable when the `threshold` constructor
argument is omitted (`None`), so two runs with identical constructor arguments
but different environments produce different sentiments (threshold 5 from the
environment makes a +2 difference fall inside the neutral band; the unset
environment defaults the threshold to 0 and yields +1). -/
theorem C8_counterexample :
    (calculate_event_sentiment (sentiment_calculator_threshold none ⟨some 5⟩)
        ⟨0, some 1, some 3, none, "CPI y/y"⟩).sentiment
      ≠ (calculate_event_sentiment (sentiment_calculator_threshold none ⟨none⟩)
        ⟨0, some 1, some 3, none, "CPI y/y"⟩).sentiment := by
  have hspeak : is_speaking_event "CPI y/y" = false := by decide
  have hinv : is_inverse_indicator "CPI y/y" = false := by decide
  have h1 : (calculate_event_sentiment (sentiment_calculator_threshold none ⟨some 5⟩)
      ⟨0, some 1, some 3, none, "CPI y/y"⟩).sentiment = 0 := by
    simp [calculate_event_sentiment, sentiment_calculator_threshold, hspeak, hinv]
    try norm_num
  have h2 : (calculate_event_sentiment (sentiment_calculator_threshold none ⟨none⟩)
      ⟨0, some 1, some 3, none, "CPI y/y"⟩).sentiment = 1 := by
    simp [calculate_event_sentiment, sentiment_calculator_threshold, hspeak, hinv]
    try norm_num
  rw [h1, h2]
  decide

/-- C8 amended: configuration noninterference holds when the threshold
constructor argument is supplied — with `threshold` not `None`, the
calculator's threshold, the collector's configuration, and every sentiment
computation are identical across arbitrary environments. -/
theorem C8_config_noninterference (t : ℚ) (env1 env2 : Env) (lookback retry : Nat)
    (e : EventInput) :
    sentiment_calculator_threshold (some t) env1 = sentiment_calculator_threshold (some t) env2 ∧
    actual_data_collector_init lookback retry env1 = actual_data_collector_init lookback retry env2 ∧
    calculate_event_sentiment (sentiment_calculator_threshold (some t) env1) e =
      calculate_event_sentiment (sentiment_calculator_threshold (some t) env2) e ∧
    calculate_actual_event_sentiment (sentiment_calculator_threshold (some t) env1) e =
      calculate_actual_event_sentiment (sentiment_calculator_threshold (some t) env2) e :=
  ⟨rfl, rfl, rfl, rfl⟩

/-- C9 counterexample: `update_indicator_with_actual_data` stamps
`actual_collected_at` with the wall-clock time of each call, so a second call
with the same value at a later time leaves a different final store than a
single call. -/
theorem C9_counterexample :
    (update_indicator_with_actual_data true
        (update_indicator_with_actual_data true [(1, ⟨none, none, false⟩)] 1 2 0).2 1 2 1).2
      ≠ (update_indicator_with_actual_data true [(1, ⟨none, none, false⟩)] 1 2 0).2 := by
  have h1 : (update_indicator_with_actual_data true [(1, ⟨none, none, false⟩)] 1 2 0).2
      = [(1, ⟨some 2, some 0, true⟩)] := by
    simp [update_indicator_with_actual_data, store_update]
  have h2 : (update_indicator_with_actual_data true [(1, ⟨some 2, some 0, true⟩)] 1 2 1).2
      = [(1, ⟨some 2, some 1, true⟩)] := by
    simp [update_indicator_with_actual_data, store_update]
  rw [h1, h2]
  intro hcontra
  have := List.head_eq_of_cons_eq hcontra
  have h3 : (some (1 : ℚ)) = some 0 := congrArg StoredIndicator.actual_collected_at
    (congrArg Prod.snd this)
  simp at h3

/-- C9 amended: persisting the same value twice for the same indicator id
leaves the same final store as persisting it once at the time of the second
call — the actual value and availability flag are idempotent, only the
actual-observed timestamp is refreshed. -/
theorem C9_persist_absorption (store : IndicatorStore) (j : Nat) (v t1 t2 : ℚ) :
    (update_indicator_with_actual_data true
        (update_indicator_with_actual_data true store j v t1).2 j v t2).2
      = (update_indicator_with_actual_data true store j v t2).2 := by
  simp only [update_indicator_with_actual_data, if_true]
  induction store with
  | nil => rfl
  | cons hd rest ih =>
    obtain ⟨i, ind⟩ := hd
    by_cases h : i = j
    · subst h
      simp [store_update_cons_eq]
    · rw [store_update_cons_ne i j ind rest v t1 h,
        store_update_cons_ne i j _ _ v t2 h,
        store_update_cons_ne i j ind rest v t2 h]
      rw [ih]

/-- C10: evaluation of `resolve_actual_currency_conflicts` at the failing
input from the repository's own test suite (three bullish events with actual
data available).  The code returns only the five entries
`final_actual_sentiment` / `final_actual_sentiment_value` / `actual_reason` /
`event_count` / `actual_sentiment_breakdown`; flipping every event's
`actual_data_available` flag leaves the output unchanged, so no count of
available-versus-missing events is reported, although the tests assert
`result["data_availability"]["available"]` and the spec requires it. -/
theorem C10_no_data_availability_report :
    resolve_actual_currency_conflicts
        [⟨0, "", none, none, none, 1, "Bullish", true, none, false, none⟩,
         ⟨1, "", none, none, none, 1, "Bullish", true, none, false, none⟩,
         ⟨2, "", none, none, none, 1, "Bullish", true, none, false, none⟩]
      = ⟨"Bullish", 1, "Majority bullish actual sentiment (3/3 events)", 3, ⟨3, 0, 0⟩⟩ ∧
    resolve_actual_currency_conflicts
        [⟨0, "", none, none, none, 1, "Bullish", true, none, false, none⟩,
         ⟨1, "", none, none, none, 1, "Bullish", true, none, false, none⟩,
         ⟨2, "", none, none, none, 1, "Bullish", true, none, false, none⟩]
      = resolve_actual_currency_conflicts
        [⟨0, "", none, none, none, 1, "Bullish", false, none, false, none⟩,
         ⟨1, "", none, none, none, 1, "Bullish", false, none, false, none⟩,
         ⟨2, "", none, none, none, 1, "Bullish", false, none, false, none⟩] := by
  decide

end QuantAnalysis
